import Mathlib

/-!
Shallow embedding of `resilient_code.py` (lohjine/resilient_code).

The file models, straight from the source:
* the value/frame view the dump logic observes (`str(v)`, `str(type(v))`,
  the runtime-type test of line 220),
* the truncation loops of `wrapper_resilient` (lines 107-117) and
  `Resilient.__exit__` (lines 244-251),
* `Resilient.__exit__`'s construction of `final_var_dump` (lines 213-225),
  including the `original_keys` set stored at line 187,
* the retry loops: the `while True` of `wrapper_resilient` (lines 49-126,
  fuel-indexed, one unit of fuel per loop iteration) and the generator
  `Resilient.__iter__` (lines 264-283) together with the guards'
  `_exception_handler` branch of `__exit__` (lines 195-206),
* the positional/keyword-argument truncation pass of the reporter
  (lines 84-105),
* `_determine_sleep_time` (lines 286-298) with the `random.random()` draw
  made explicit as a parameter, over `ℚ`,
* `_check_input_arguments` (lines 300-333) over a small model of the
  Python values a caller can pass for each configuration field.

Side effects that do not influence the claims (the text of log messages,
`time.sleep` itself, the pickle file's bytes) are not modelled; what is
modelled is which entries each emitted dump holds, which exceptions the
engine raises or swallows, how often the unit of work runs, and how often
the engine pauses.
-/

/-- Exception kind and message, modelling a Python exception instance. -/
structure PyExcInfo where
  ty : String
  msg : String
deriving DecidableEq

/-- Runtime category of a Python value, as tested by
`type(v) not in (types.FunctionType, types.ModuleType, types.MethodType, type)`
at resilient_code.py line 220-221. `strv` marks `str` instances (the
truncation loops replace an oversized value by a `str`). -/
inductive PyKind
  | func
  | module
  | method
  | cls
  | strv
  | other
deriving DecidableEq

/-- A Python value as the dump logic observes it: its runtime category,
its `str(type(v))` rendering and its `str(v)` rendering. -/
structure PyValue where
  kind : PyKind
  typeStr : String
  str : String
deriving DecidableEq

/-- A frame's local-variable mapping (`f_locals`): names to values in
insertion order, as a Python dict presents them. -/
abbrev Frame := List (String × PyValue)

/-- Python slicing `s[:n]`: the first `n` characters of `s`. -/
def strTake (s : String) (n : Nat) : String :=
  String.mk (s.data.take n)

/-- Python `len(s)` on the `str()` rendering. -/
def strLen (s : String) : Nat :=
  s.data.length

/-- Python `k[0] == '_'` on a variable name (frame keys are never empty
in Python, so the empty case is immaterial and mapped to `false`). -/
def startsUnderscore (s : String) : Bool :=
  match s.data with
  | [] => false
  | c :: _ => c == '_'

/-- Lines 113-115 and 249-251: a value whose `str()` form is longer than
`max_var_str_len` is replaced by `str(type(v)) + " " + str(v)[:max_var_str_len]`;
the replacement is a Python `str`.  Values at or below the limit are left
untouched. -/
def truncateValue (maxLen : Nat) (v : PyValue) : PyValue :=
  if maxLen < strLen v.str then
    ⟨PyKind.strv, "<class str>", v.typeStr ++ " " ++ strTake v.str maxLen⟩
  else v

/-- The two `continue` guards of the dump loops (lines 109-112 and 245-248):
an entry is eligible for truncation iff (the whitelist is empty or holds the
name) and (the blacklist is empty or does not hold the name).  Note the
guards only decide truncation eligibility: a skipped entry stays in the
mapping untouched. -/
def truncGate (wl bl : List String) (name : String) : Bool :=
  (wl.isEmpty || wl.contains name) && (bl.isEmpty || !(bl.contains name))

/-- One entry of the dump loops: truncate when the gates allow, otherwise
leave the entry exactly as it was.  Either way the entry remains in the
dump. -/
def processEntry (wl bl : List String) (maxLen : Nat)
    (e : String × PyValue) : String × PyValue :=
  if truncGate wl bl e.1 then (e.1, truncateValue maxLen e.2) else e

/-- The in-place mutation loop over a dump dict, lines 108-115 / 244-251. -/
def processDump (wl bl : List String) (maxLen : Nat) (dump : Frame) : Frame :=
  dump.map (processEntry wl bl maxLen)

/-- `wrapper_resilient`, lines 107-117: the logged
`Exception variable dump` is the whole failing frame (`local_var_dump`)
after the truncation loop.  No entry is ever removed here: the whitelist
and blacklist checks only `continue` past the truncation assignment. -/
def wrapper_logged_dump (wl bl : List String) (maxLen : Nat)
    (frame : Frame) : Frame :=
  processDump wl bl maxLen frame

/-- The names bound in `Resilient.__init__`'s own scope when line 187
evaluates `set([i for i in locals().keys() if i[0] != '_'])`: the method's
parameters including `self` (`_exception_handler` and the throwaway `_`
start with an underscore and are dropped).  This fixed set - not the
enclosing caller's name set - is what the code stores as
`self.original_keys`. -/
def initParamNames : List String :=
  ["self", "max_tries", "whitelist_var", "blacklist_var", "max_var_str_len",
   "to_log", "reraise", "exponential_backoff", "to_pickle", "to_pickle_path",
   "custom_log_msg"]

/-- Lines 220-221: drop names starting with an underscore and values whose
runtime type is `FunctionType`, `ModuleType`, `MethodType` or `type`. -/
def typeFilter (frame : Frame) : Frame :=
  frame.filter (fun e =>
    !(startsUnderscore e.1) &&
    !(e.2.kind == PyKind.func || e.2.kind == PyKind.module ||
      e.2.kind == PyKind.method || e.2.kind == PyKind.cls))

/-- Lines 213-225: `final_var_dump`.  Whitelist branch (213-217): exactly
the whitelisted names found in the captured frame, in whitelist order; the
blacklist is not consulted here.  Else branch (219-225): apply the
underscore/type filter, then drop every name in `original_keys`. -/
def Resilient_final_dump (wl originalKeys : List String)
    (frame : Frame) : Frame :=
  if wl.isEmpty then
    (typeFilter frame).filter (fun e => !(originalKeys.contains e.1))
  else
    wl.filterMap (fun n => (frame.lookup n).map (fun v => (n, v)))

/-- The `Exception variable dump` logged by `Resilient.__exit__`
(lines 213-253): `final_var_dump` after the truncation loop of
lines 244-251. -/
def Resilient_logged_dump (wl bl : List String) (maxLen : Nat)
    (originalKeys : List String) (frame : Frame) : Frame :=
  processDump wl bl maxLen (Resilient_final_dump wl originalKeys frame)

/-- Names appearing in a dump, in order. -/
def dumpNames (f : Frame) : List String :=
  f.map Prod.fst

/- Sample concrete values used by the concrete evaluations below. -/

def vInt7 : PyValue := ⟨PyKind.other, "<class int>", "7"⟩

def vInt8 : PyValue := ⟨PyKind.other, "<class int>", "8"⟩

def vFun : PyValue := ⟨PyKind.func, "<class function>", "function f"⟩

def exc0 : PyExcInfo := ⟨"ValueError", "boom"⟩

def frame0 : Frame := [("new_var", vInt7)]

/-- The configuration fields the retry engines read once validated.
`to_log` is taken as `true` and `to_pickle` as `false` (their defaults);
`backoff` is the truthiness of `exponential_backoff` (the default dict is
truthy). -/
structure Cfg where
  maxTries : Nat
  wl : List String
  bl : List String
  maxLen : Nat
  reraise : Bool
  backoff : Bool
deriving DecidableEq

/-- Result of one execution of the guarded unit of work: the value it
returns, or the exception it raises together with the failing frame's
locals (`inspect.trace()[-1][0].f_locals`). -/
inductive Outcome
  | success (v : PyValue)
  | failure (e : PyExcInfo) (frame : Frame)
deriving DecidableEq

/-- Observable state of one call of `wrapper_resilient` after a given
number of `while True` iterations.  `running` means the loop is still
going: the code's only exits sit inside the `except` arm (lines 121-124);
`return r` at line 126 stands after `while True` and is unreachable, so a
successful attempt falls through to the next iteration. -/
inductive WOut
  | running
  | raised (e : PyExcInfo) (dump : Frame)
  | retNone (dump : Frame)
deriving DecidableEq

/-- Outcome, value of `tries`, and number of completed `time.sleep` pauses
of a `wrapper_resilient` call. -/
structure WrapRes where
  out : WOut
  tries : Nat
  pauses : Nat
deriving DecidableEq

/-- Lines 49-126 of `wrapper_resilient`, one unit of fuel per `while True`
iteration, starting from given `tries` and pause counters.  On failure with
tries remaining the loop pauses (when backoff is configured) and retries; on
the final failure it logs the processed dump and either re-raises the
attempt's exception or returns `None`.  On success the loop body ends and
the loop re-enters: the code has no `break` or `return` on that path. -/
def wrapper_resilient_go (cfg : Cfg) (work : Nat → Outcome) :
    Nat → Nat → Nat → WrapRes
  | 0, tries, pauses => ⟨WOut.running, tries, pauses⟩
  | fuel + 1, tries, pauses =>
    let t := tries + 1
    match work t with
    | Outcome.success _ => wrapper_resilient_go cfg work fuel t pauses
    | Outcome.failure e frame =>
      if t < cfg.maxTries then
        wrapper_resilient_go cfg work fuel t
          (if cfg.backoff then pauses + 1 else pauses)
      else
        let dump := wrapper_logged_dump cfg.wl cfg.bl cfg.maxLen frame
        if cfg.reraise then ⟨WOut.raised e dump, t, pauses⟩
        else ⟨WOut.retNone dump, t, pauses⟩

/-- A call of the wrapped function observed for `fuel` loop iterations. -/
def wrapper_resilient (cfg : Cfg) (work : Nat → Outcome) (fuel : Nat) :
    WrapRes :=
  wrapper_resilient_go cfg work fuel 0 0

/-- The handoff record `_exception_handler` of `Resilient.__iter__`:
`noneH` is the initial `'exception': None`; `flagOnly` is the bare `True`
stored by a non-final guard (line 205); `full` is the
`(exc_type, exc_value, tb)` triple plus captured `_var_dump` stored by the
final guard (lines 200-202).  The code never resets the field to `None`. -/
inductive Handoff
  | noneH
  | flagOnly
  | full (e : PyExcInfo) (frame : Frame)
deriving DecidableEq

/-- What the caller of `for attempt in Resilient(...)` observes when the
iteration ends: a clean stop (the generator returned or broke; `reported`
holds the dump logged by the terminal `__exit__` call, if reporting
happened), an exception raised by the engine itself, or - fuel permitting -
a still-running iteration. -/
inductive IterObs
  | cleanStop (reported : Option Frame)
  | pyErr (ty : String)
  | running
deriving DecidableEq

/-- Observation, number of block executions, and completed pauses of a
multi-attempt scoped iteration. -/
structure IterRes where
  obs : IterObs
  calls : Nat
  pauses : Nat
deriving DecidableEq

/-- `Resilient.__iter__` (lines 264-283) with the guards' handoff branch of
`__exit__` (lines 195-206), one unit of fuel per produced guard.  Each
guard suppresses the failure it sees, recording it in the handoff (the full
exception and frame only when `last_iter` is set).  After each guard the
iterator breaks only if the handoff still holds `None`; at
`tries >= max_tries` it calls `self.__exit__` by hand, passing the recorded
frame.  If the handoff holds the bare `True` flag, unpacking `*True` at
line 275 raises a `TypeError` inside the generator.  Otherwise `__exit__`
runs: when the recorded frame is empty (a falsy dict), line 208's
`if not _var_dump:` re-captures via `inspect.trace()[-1]` - but no
exception is being handled in the generator (the guard already suppressed
it), so `inspect.trace()` is `[]` and indexing it raises an `IndexError`
to the caller; when the frame is nonempty, the call logs the processed
dump and merely returns a value the generator discards, so nothing is
re-raised to the caller. -/
def Resilient_iter_go (cfg : Cfg) (block : Nat → Outcome) :
    Nat → Nat → Bool → Handoff → Nat → IterRes
  | 0, tries, _, _, pauses => ⟨IterObs.running, tries, pauses⟩
  | fuel + 1, tries, lastIter, h, pauses =>
    let t := tries + 1
    let h2 := match block t with
      | Outcome.success _ => h
      | Outcome.failure e frame =>
        if lastIter then Handoff.full e frame else Handoff.flagOnly
    match h2 with
    | Handoff.noneH => ⟨IterObs.cleanStop Option.none, t, pauses⟩
    | Handoff.flagOnly =>
      if cfg.maxTries ≤ t then ⟨IterObs.pyErr "TypeError", t, pauses⟩
      else
        Resilient_iter_go cfg block fuel t
          (lastIter || (t + 1 == cfg.maxTries)) Handoff.flagOnly
          (if cfg.backoff then pauses + 1 else pauses)
    | Handoff.full e frame =>
      if cfg.maxTries ≤ t then
        ⟨if frame.isEmpty then IterObs.pyErr "IndexError"
          else IterObs.cleanStop (Option.some
            (Resilient_logged_dump cfg.wl cfg.bl cfg.maxLen initParamNames
              frame)), t, pauses⟩
      else
        Resilient_iter_go cfg block fuel t
          (lastIter || (t + 1 == cfg.maxTries)) (Handoff.full e frame)
          (if cfg.backoff then pauses + 1 else pauses)

/-- `for attempt in Resilient(...)`: lines 265-266 raise a `ValueError`
when `max_tries == 1`, before any attempt; otherwise the generator loop of
lines 268-283 runs. -/
def Resilient_iter (cfg : Cfg) (block : Nat → Outcome) (fuel : Nat) :
    IterRes :=
  if cfg.maxTries == 1 then ⟨IterObs.pyErr "ValueError", 0, 0⟩
  else Resilient_iter_go cfg block fuel 0 false Handoff.noneH 0

/-- Lines 86-92: the positional-argument truncation pass of the reporter.
`args` is the tuple bound by `*args`, and `args[idx] = ...` on a tuple
raises a `TypeError`, so the pass fails at the first argument whose `str()`
form is longer than `max_var_str_len` and returns the tuple unchanged when
no argument is oversized. -/
def truncate_args (maxLen : Nat) : List PyValue → Except PyExcInfo (List PyValue)
  | [] => Except.ok []
  | v :: rest =>
    if maxLen < strLen v.str then
      Except.error ⟨"TypeError", "tuple object does not support item assignment"⟩
    else
      (truncate_args maxLen rest).map (fun r => v :: r)

/-- Lines 94-100: the keyword-argument truncation pass.  `kwargs` is a
dict, so the in-place assignment works; an oversized value is replaced by
the plain first `max_var_str_len` characters of its `str()` form (no type
prefix here, unlike the variable dump). -/
def truncate_kwargs (maxLen : Nat) (kw : Frame) : Frame :=
  kw.map (fun e =>
    if maxLen < strLen e.2.str then
      (e.1, ⟨PyKind.strv, "<class str>", strTake e.2.str maxLen⟩)
    else e)

/-- What the reporting block produces when it completes: whether the pickle
failure was demoted to a secondary log line, the truncated keyword
arguments shown in the message, and the logged variable dump. -/
structure ReportOut where
  secondaryLog : Bool
  kwargsShown : Frame
  dump : Frame
deriving DecidableEq

/-- The reporting block of `wrapper_resilient` (lines 68-119).
`pickleFails` says whether the persistence collaborator raises; lines 69-72
catch that and log a secondary error, never letting it escape.  The
positional-argument pass (lines 86-92) can itself raise, aborting the rest
of the report and replacing the original failure's propagation. -/
def wrapper_report (cfg : Cfg) (pickleFails : Bool) (args : List PyValue)
    (kwargs : Frame) (frame : Frame) : Except PyExcInfo ReportOut :=
  match truncate_args cfg.maxLen args with
  | Except.error e => Except.error e
  | Except.ok _ =>
    Except.ok ⟨pickleFails, truncate_kwargs cfg.maxLen kwargs,
      wrapper_logged_dump cfg.wl cfg.bl cfg.maxLen frame⟩

/-- `_determine_sleep_time` (lines 286-298) with the `random.random()` draw
made explicit as the parameter `j` (a fraction in `[0,1)`), over `ℚ`: the
sentinel `-1` resets to `min_time`, otherwise the previous delay doubles
and is capped at `max_time`; then jitter `j * 0.05 * current` is added - in
both branches, the sentinel branch included. -/
def determine_sleep_time (current min_time max_time j : ℚ) : ℚ :=
  let c := if current = -1 then min_time
           else (if max_time < current * 2 then max_time else current * 2)
  c + j * (5 / 100) * c

/-- A Python value a caller can pass for a configuration field, with the
structure `_check_input_arguments` inspects. -/
inductive PyObj
  | int (n : Int)
  | bool (b : Bool)
  | float (q : ℚ)
  | str (s : String)
  | list (xs : List PyObj)
  | tuple (xs : List PyObj)
  | dict (xs : List (String × PyObj))
  | nonev

/-- `isinstance(x, int)`: `bool` is a subclass of `int` in Python. -/
def PyObj.isInt : PyObj → Bool
  | PyObj.int _ => true
  | PyObj.bool _ => true
  | _ => false

/-- `isinstance(x, (float, int))`: again `bool` passes via `int`. -/
def PyObj.isFloatOrInt : PyObj → Bool
  | PyObj.float _ => true
  | PyObj.int _ => true
  | PyObj.bool _ => true
  | _ => false

def PyObj.isBool : PyObj → Bool
  | PyObj.bool _ => true
  | _ => false

def PyObj.isStr : PyObj → Bool
  | PyObj.str _ => true
  | _ => false

def PyObj.isListOrTuple : PyObj → Bool
  | PyObj.list _ => true
  | PyObj.tuple _ => true
  | _ => false

def PyObj.isDict : PyObj → Bool
  | PyObj.dict _ => true
  | _ => false

/-- Python truthiness of the modelled values. -/
def PyObj.truthy : PyObj → Bool
  | PyObj.int n => n != 0
  | PyObj.bool b => b
  | PyObj.float q => q != 0
  | PyObj.str s => !(s.isEmpty)
  | PyObj.list xs => !(xs.isEmpty)
  | PyObj.tuple xs => !(xs.isEmpty)
  | PyObj.dict xs => !(xs.isEmpty)
  | PyObj.nonev => false

/-- The integer value of an object already known to satisfy `isInt`
(`True` counts as 1, `False` as 0); other cases are immaterial. -/
def PyObj.intVal : PyObj → Int
  | PyObj.int n => n
  | PyObj.bool b => if b then 1 else 0
  | _ => 0

/-- Elements of a list/tuple object; other cases are immaterial. -/
def PyObj.elems : PyObj → List PyObj
  | PyObj.list xs => xs
  | PyObj.tuple xs => xs
  | _ => []

/-- `d.get(k, False)` on a dict object: the stored value, else `False`. -/
def PyObj.dictGet (d : PyObj) (k : String) : PyObj :=
  match d with
  | PyObj.dict xs => (xs.lookup k).getD (PyObj.bool false)
  | _ => PyObj.bool false

/-- The failure kinds `_check_input_arguments` can raise; the tag records
which field the raising check concerns (the f-string message text is not
modelled). -/
inductive CheckErr
  | typeError (field : String)
  | valueError (field : String)
deriving DecidableEq

/-- `_check_input_arguments` (lines 300-333), check for check in source
order.  Note line 331: `exponential_backoff.get('min', False)` defaults to
`False`, and `isinstance(False, (float, int))` holds because `bool` is an
`int` subclass - so a backoff dict missing `min` or `max` passes. -/
def check_input_arguments (max_tries whitelist_var blacklist_var
    max_var_str_len to_log reraise to_pickle to_pickle_path custom_log_msg
    exponential_backoff : PyObj) : Except CheckErr Bool :=
  if !(max_tries.isInt) then
    Except.error (CheckErr.typeError "max_tries")
  else if !(0 < max_tries.intVal) then
    Except.error (CheckErr.valueError "max_tries")
  else if !(whitelist_var.isListOrTuple) then
    Except.error (CheckErr.typeError "whitelist_var")
  else if !(whitelist_var.elems.all PyObj.isStr) then
    Except.error (CheckErr.valueError "whitelist_var")
  else if !(blacklist_var.isListOrTuple) then
    Except.error (CheckErr.typeError "blacklist_var")
  else if !(blacklist_var.elems.all PyObj.isStr) then
    Except.error (CheckErr.valueError "blacklist_var")
  else if !(max_var_str_len.isInt) then
    Except.error (CheckErr.typeError "max_var_str_len")
  else if !(0 ≤ max_var_str_len.intVal) then
    Except.error (CheckErr.valueError "max_var_str_len")
  else if !(to_log.isBool) then
    Except.error (CheckErr.typeError "to_log")
  else if !(reraise.isBool) then
    Except.error (CheckErr.typeError "reraise")
  else if !(to_pickle.isBool) then
    Except.error (CheckErr.typeError "to_pickle")
  else if !(to_pickle_path.isStr) then
    Except.error (CheckErr.typeError "to_pickle_path")
  else if !(custom_log_msg.isStr) then
    Except.error (CheckErr.typeError "custom_log_msg")
  else if !(exponential_backoff.isDict || !(exponential_backoff.truthy)) then
    Except.error (CheckErr.typeError "exponential_backoff")
  else if exponential_backoff.isDict &&
      !((exponential_backoff.dictGet "min").isFloatOrInt &&
        (exponential_backoff.dictGet "max").isFloatOrInt) then
    Except.error (CheckErr.valueError "exponential_backoff")
  else
    Except.ok true

/-- Decidable equality for `Except`, so the concrete evaluations below can
go through `decide`. -/
instance instDecEqExcept {ε α : Type} [DecidableEq ε] [DecidableEq α] :
    DecidableEq (Except ε α) := fun a b =>
  match a, b with
  | Except.ok x, Except.ok y =>
    if h : x = y then Decidable.isTrue (by rw [h])
    else Decidable.isFalse (by intro hh; cases hh; exact h rfl)
  | Except.ok _, Except.error _ =>
    Decidable.isFalse (fun h => Except.noConfusion h)
  | Except.error _, Except.ok _ =>
    Decidable.isFalse (fun h => Except.noConfusion h)
  | Except.error x, Except.error y =>
    if h : x = y then Decidable.isTrue (by rw [h])
    else Decidable.isFalse (by intro hh; cases hh; exact h rfl)

/- Further concrete data for the evaluations below. -/

/-- A unit of work failing on every attempt with the same exception and
failure frame. -/
def alwaysFail : Nat → Outcome :=
  fun _ => Outcome.failure exc0 frame0

def frameAB : Frame := [("a", vInt7), ("b", vInt8)]

def frameC4 : Frame := [("a", vInt7), ("b", vInt8), ("_h", vInt7), ("f", vFun)]

/-- A value whose `str()` form has 600 characters. -/
def vLong : PyValue :=
  ⟨PyKind.strv, "<class str>", String.mk (List.replicate 600 'x')⟩

def vInt77 : PyValue := ⟨PyKind.other, "<class int>", "77"⟩

/-- C2: evaluation of the code at the failing input.  Function form with a
unit of work failing both attempts of `max_tries = 2`: under
`reraise=True` the original exception (type and message intact) is
re-raised after exhaustion, and under `reraise=False` the call returns
`None`, as the claim says.  Multi-attempt scoped form on the same work
with `reraise=True`: the last guard has already suppressed the exception
and the iterator's hand-made `self.__exit__` call only logs and returns,
so the iteration ends cleanly - nothing is raised to the caller,
contradicting the claim. -/
theorem c2_code_eval :
    wrapper_resilient ⟨2, [], [], 500, true, true⟩ alwaysFail 2 =
      ⟨WOut.raised exc0 frame0, 2, 1⟩ ∧
    wrapper_resilient ⟨2, [], [], 500, false, true⟩ alwaysFail 2 =
      ⟨WOut.retNone frame0, 2, 1⟩ ∧
    Resilient_iter ⟨2, [], [], 500, true, true⟩ alwaysFail 10 =
      ⟨IterObs.cleanStop (Option.some frame0), 2, 1⟩ := by decide

/-- C3: evaluation of the code at the failing input, with
`whitelist_var = ["a"]`, `blacklist_var = ["a"]` and a failure frame
holding `a` and `b`.  Scoped form: the dump is exactly `a` (built from the
whitelist; the name listed in both lists appears).  Function form: the
logged dump keeps both `a` and `b` - the whitelist never removes an entry
there, it only gates truncation - and the blacklist IS consulted: with
`max_var_str_len = 0` the dump differs depending on whether `a` is
blacklisted, because a blacklisted name is exempted from truncation. -/
theorem c3_code_eval :
    dumpNames (wrapper_logged_dump ["a"] ["a"] 500 frameAB) = ["a", "b"] ∧
    wrapper_logged_dump ["a"] [] 0 frameAB ≠
      wrapper_logged_dump ["a"] ["a"] 0 frameAB ∧
    dumpNames (Resilient_logged_dump ["a"] ["a"] 500 initParamNames frameAB) =
      ["a"] := by decide

/-- C4: evaluation of the code at the failing input, with an empty
whitelist, `blacklist_var = ["b"]` and a failure frame holding `a`, `b`,
`_h` (underscore name) and `f` (a function value).  Scoped form: `_h` and
`f` are filtered out, but the blacklisted `b` still appears in the dump -
the blacklist check only exempts it from truncation.  Function form: no
filtering happens at all; every frame entry, `_h`, `f` and the blacklisted
`b` included, appears in the logged dump. -/
theorem c4_code_eval :
    "b" ∈ dumpNames (Resilient_logged_dump [] ["b"] 500 initParamNames frameC4) ∧
    "_h" ∉ dumpNames (Resilient_logged_dump [] ["b"] 500 initParamNames frameC4) ∧
    "f" ∉ dumpNames (Resilient_logged_dump [] ["b"] 500 initParamNames frameC4) ∧
    dumpNames (wrapper_logged_dump [] ["b"] 500 frameC4) =
      ["a", "b", "_h", "f"] := by decide

/-- C5: evaluation of the code at the failing input.  A caller does
`x = 1` before `with Resilient():`, reassigns `x` inside the block, and the
block fails; the failure frame is the caller's frame, holding `x`.  The
claim (and the class docstring) say the names subtracted are the enclosing
scope's names captured at construction, so `x` must never appear in the
dump.  But line 187 evaluates `locals()` inside `__init__`, so the stored
`original_keys` is the fixed list of `__init__` parameter names
(`initParamNames`), which does not contain `x` - and `x` appears in the
reportable dump. -/
theorem c5_code_eval :
    "x" ∈ dumpNames (Resilient_logged_dump [] [] 500 initParamNames
      [("x", vInt7)]) ∧
    "x" ∉ initParamNames := by decide

set_option maxRecDepth 4000 in
/-- C6: evaluation of the code at the failing input.  A positional
argument whose `str()` form has 600 characters with `max_var_str_len = 500`
makes the reporting block itself raise a `TypeError`
(`args[idx] = ...` mutates the `*args` tuple), replacing the original
failure's propagation - the Reporter does not complete.  A failure of the
pickle collaborator, by contrast, is swallowed into a secondary log line
and reporting completes. -/
theorem c6_code_eval :
    wrapper_report ⟨1, [], [], 500, true, true⟩ false [vLong] [] frame0 =
      Except.error ⟨"TypeError", "tuple object does not support item assignment"⟩ ∧
    wrapper_report ⟨1, [], [], 500, true, true⟩ true [] [] frame0 =
      Except.ok ⟨true, [], frame0⟩ := by
  constructor
  · decide
  · decide

/-- C7: evaluation of the code at the failing input, plus the checks that
do behave as claimed.  `exponential_backoff = ⦃"max": 1⦄` is a present
(truthy) dict missing the numeric `"min"` key, yet validation succeeds:
line 331's `.get('min', False)` default `False` passes
`isinstance(..., (float, int))` because `bool` subclasses `int`.  The
remaining conjuncts show the claimed behaviours that do hold: `max_tries`
of a wrong type raises a `TypeError`-kind error, `max_tries = 0`,
a non-string whitelist element and `max_var_str_len = -1` raise
`ValueError`-kind errors. -/
theorem c7_code_eval :
    check_input_arguments (PyObj.int 3) (PyObj.list []) (PyObj.list [])
      (PyObj.int 500) (PyObj.bool true) (PyObj.bool true) (PyObj.bool false)
      (PyObj.str "dump.pkl") (PyObj.str "")
      (PyObj.dict [("max", PyObj.int 1)]) = Except.ok true ∧
    check_input_arguments (PyObj.str "3") (PyObj.list []) (PyObj.list [])
      (PyObj.int 500) (PyObj.bool true) (PyObj.bool true) (PyObj.bool false)
      (PyObj.str "dump.pkl") (PyObj.str "")
      (PyObj.dict [("min", PyObj.float (5 / 100)), ("max", PyObj.int 1)]) =
      Except.error (CheckErr.typeError "max_tries") ∧
    check_input_arguments (PyObj.int 0) (PyObj.list []) (PyObj.list [])
      (PyObj.int 500) (PyObj.bool true) (PyObj.bool true) (PyObj.bool false)
      (PyObj.str "dump.pkl") (PyObj.str "")
      (PyObj.dict [("min", PyObj.float (5 / 100)), ("max", PyObj.int 1)]) =
      Except.error (CheckErr.valueError "max_tries") ∧
    check_input_arguments (PyObj.int 3) (PyObj.list [PyObj.int 1])
      (PyObj.list []) (PyObj.int 500) (PyObj.bool true) (PyObj.bool true)
      (PyObj.bool false) (PyObj.str "dump.pkl") (PyObj.str "")
      (PyObj.dict [("min", PyObj.float (5 / 100)), ("max", PyObj.int 1)]) =
      Except.error (CheckErr.valueError "whitelist_var") ∧
    check_input_arguments (PyObj.int 3) (PyObj.list []) (PyObj.list [])
      (PyObj.int (-1)) (PyObj.bool true) (PyObj.bool true) (PyObj.bool false)
      (PyObj.str "dump.pkl") (PyObj.str "")
      (PyObj.dict [("min", PyObj.float (5 / 100)), ("max", PyObj.int 1)]) =
      Except.error (CheckErr.valueError "max_var_str_len") := by
  refine ⟨?_, ?_, ?_, ?_, ?_⟩ <;> rfl

/-- C10: evaluation of the code at the failing input, plus the truncation
behaviours that do hold.  With `whitelist_var = ["a"]` and
`blacklist_var = ["a"]`, the value of `a` survives filtering (it is the
whole reportable dump) and its `str()` form `"77"` exceeds
`max_var_str_len = 1`, yet it appears untruncated in both forms - the
truncation loop's blacklist guard applies even in whitelist mode, so the
entry is not the mandated `str(type) + " " + first chars` replacement.
The last two conjuncts show the claimed shape when the gates pass: an
oversized surviving value becomes exactly `"<class int> 7"`, and a value at
the limit is left unchanged. -/
theorem c10_code_eval :
    Resilient_logged_dump ["a"] ["a"] 1 initParamNames [("a", vInt77)] =
      [("a", vInt77)] ∧
    wrapper_logged_dump ["a"] ["a"] 1 [("a", vInt77)] = [("a", vInt77)] ∧
    1 < strLen vInt77.str ∧
    vInt77 ≠ ⟨PyKind.strv, "<class str>",
      vInt77.typeStr ++ " " ++ strTake vInt77.str 1⟩ ∧
    wrapper_logged_dump [] [] 1 [("a", vInt77)] =
      [("a", ⟨PyKind.strv, "<class str>", "<class int> 7"⟩)] ∧
    wrapper_logged_dump [] [] 2 [("a", vInt77)] = [("a", vInt77)] := by
  decide

/-- On an always-failing unit of work with backoff configured, the
`wrapper_resilient` loop started at `tries = t` with `t + k = max_tries`
runs exactly the remaining `k` attempts (one per unit of fuel), pauses
after each non-final one, and terminates with attempt `max_tries`'s
exception: re-raised under `reraise`, a `None` return otherwise, the
processed dump logged either way. -/
theorem wrapper_go_allfail (wl bl : List String) (maxLen : Nat)
    (reraise : Bool) (n : Nat) (work : Nat → Outcome) (E : Nat → PyExcInfo)
    (F : Nat → Frame) (hw : ∀ t, work t = Outcome.failure (E t) (F t)) :
    ∀ k t p, t + k = n → 0 < k →
      wrapper_resilient_go ⟨n, wl, bl, maxLen, reraise, true⟩ work k t p =
        ⟨if reraise
            then WOut.raised (E n) (wrapper_logged_dump wl bl maxLen (F n))
            else WOut.retNone (wrapper_logged_dump wl bl maxLen (F n)),
          n, p + (k - 1)⟩ := by
  intro k
  induction k with
  | zero => intro t p _ hpos; exact absurd hpos (by omega)
  | succ k ih =>
    intro t p hsum _
    simp only [wrapper_resilient_go, hw]
    by_cases hk : k = 0
    · subst hk
      have ht1 : n = t + 1 := by omega
      subst ht1
      rw [if_neg (Nat.lt_irrefl (t + 1))]
      cases reraise <;> rfl
    · have hlt : t + 1 < n := by omega
      simp only [hlt, if_true, if_pos]
      have hres := ih (t + 1) (p + 1) (by omega) (by omega)
      simp only [show (⟨n, wl, bl, maxLen, reraise, true⟩ : Cfg).backoff = true
        from rfl, if_true] at hres ⊢
      rw [hres]
      have hp : p + 1 + (k - 1) = p + (k + 1 - 1) := by omega
      rw [hp]

/-- On an always-failing block with backoff configured, the
`Resilient.__iter__` loop started at `tries = t` with `t + k = n` (the
state the iterator is in when attempt `t + 1` is about to run: the
handoff's `last_iter` flag reads `t + 1 == n`) runs the remaining `k`
attempts, pauses after each non-final one, and then enters the terminal
`__exit__` call: when attempt `n`'s captured frame is nonempty its
processed dump is logged and the iteration ends cleanly - nothing is
raised to the caller - and when it is empty the line-208 re-capture
raises an `IndexError` out of the generator. -/
theorem iter_go_allfail (wl bl : List String) (maxLen : Nat)
    (reraise : Bool) (n : Nat) (block : Nat → Outcome) (E : Nat → PyExcInfo)
    (F : Nat → Frame) (hw : ∀ t, block t = Outcome.failure (E t) (F t)) :
    ∀ k t p (h : Handoff), t + k = n → 0 < k →
      Resilient_iter_go ⟨n, wl, bl, maxLen, reraise, true⟩ block k t
        ((t + 1 : Nat) == n) h p =
        ⟨if (F n).isEmpty then IterObs.pyErr "IndexError"
          else IterObs.cleanStop (Option.some
            (Resilient_logged_dump wl bl maxLen initParamNames (F n))),
         n, p + (k - 1)⟩ := by
  intro k
  induction k with
  | zero => intro t p h _ hpos; exact absurd hpos (by omega)
  | succ k ih =>
    intro t p h hsum _
    simp only [Resilient_iter_go, hw]
    by_cases hk : k = 0
    · subst hk
      have ht1 : n = t + 1 := by omega
      subst ht1
      simp only [beq_self_eq_true, if_true, Nat.le_refl]
      rfl
    · have hlt : t + 1 < n := by omega
      have hne : ((t + 1 : Nat) == n) = false := by
        simp only [beq_eq_false_iff_ne, ne_eq]
        omega
      have hnle : ¬ (n ≤ t + 1) := by omega
      simp only [hne, Bool.false_eq_true, if_false, hnle, Bool.false_or]
      have hres := ih (t + 1) (p + 1) Handoff.flagOnly (by omega) (by omega)
      simp only [show (⟨n, wl, bl, maxLen, reraise, true⟩ : Cfg).backoff = true
        from rfl, if_true] at hres ⊢
      rw [hres]
      have hp : p + 1 + (k - 1) = p + (k + 1 - 1) := by omega
      rw [hp]

/-- C8: confirmed.  For every `max_tries = n ≥ 1`, every configuration of
whitelist, blacklist, truncation limit and reraise policy, and every unit
of work that fails on every attempt, the function form executes the work
exactly `n` times (the final `tries` counter is `n`, with `n - 1`
inter-attempt pauses) and only then enters the terminal failure path:
attempt `n`'s frame is captured, processed and logged, and the exception
is re-raised or swallowed per `reraise`.  For `n ≥ 2` the multi-attempt
scoped form likewise executes the block exactly `n` times, with `n - 1`
pauses, before entering its terminal `__exit__` call; that call reports
attempt `n`'s processed dump when the captured frame is nonempty, and
raises an `IndexError` from the line-208 re-capture when the captured
frame is empty - either way the attempt and pause counts are exactly as
claimed. -/
theorem c8_exact_attempts (n : Nat) (wl bl : List String) (maxLen : Nat)
    (reraise : Bool) (work : Nat → Outcome) (E : Nat → PyExcInfo)
    (F : Nat → Frame) (hw : ∀ t, work t = Outcome.failure (E t) (F t))
    (hn : 1 ≤ n) :
    wrapper_resilient ⟨n, wl, bl, maxLen, reraise, true⟩ work n =
      ⟨if reraise
          then WOut.raised (E n) (wrapper_logged_dump wl bl maxLen (F n))
          else WOut.retNone (wrapper_logged_dump wl bl maxLen (F n)),
        n, n - 1⟩ ∧
    (2 ≤ n →
      Resilient_iter ⟨n, wl, bl, maxLen, reraise, true⟩ work n =
        ⟨if (F n).isEmpty then IterObs.pyErr "IndexError"
          else IterObs.cleanStop (Option.some
            (Resilient_logged_dump wl bl maxLen initParamNames (F n))),
         n, n - 1⟩) := by
  constructor
  · have hres := wrapper_go_allfail wl bl maxLen reraise n work E F hw n 0 0
      (by omega) (by omega)
    simpa [wrapper_resilient] using hres
  · intro h2
    have hne1 : (n == 1) = false := by
      simp only [beq_eq_false_iff_ne, ne_eq]
      omega
    have hres := iter_go_allfail wl bl maxLen reraise n work E F hw n 0 0
      Handoff.noneH (by omega) (by omega)
    have hne : ((0 + 1 : Nat) == n) = false := by
      simp only [beq_eq_false_iff_ne, ne_eq]
      omega
    rw [hne] at hres
    simp only [Resilient_iter, hne1, Bool.false_eq_true, if_false]
    simpa using hres

/-- C8 witness: the theorem applied at `n = 3` with a concrete
always-failing unit of work whose captured frame is nonempty, the
configuration defaults, and the hypotheses discharged concretely. -/
theorem c8_exact_attempts_witness :
    (∀ t, alwaysFail t = Outcome.failure exc0 frame0) ∧ 1 ≤ 3 ∧
    (wrapper_resilient ⟨3, [], [], 500, true, true⟩ alwaysFail 3 =
      ⟨if true
          then WOut.raised exc0 (wrapper_logged_dump [] [] 500 frame0)
          else WOut.retNone (wrapper_logged_dump [] [] 500 frame0),
        3, 3 - 1⟩ ∧
     (2 ≤ 3 →
      Resilient_iter ⟨3, [], [], 500, true, true⟩ alwaysFail 3 =
        ⟨if (frame0 : Frame).isEmpty then IterObs.pyErr "IndexError"
          else IterObs.cleanStop (Option.some
            (Resilient_logged_dump [] [] 500 initParamNames frame0)),
         3, 3 - 1⟩)) :=
  ⟨fun _ => rfl, by decide,
    c8_exact_attempts 3 [] [] 500 true alwaysFail (fun _ => exc0)
      (fun _ => frame0) (fun _ => rfl) (by decide)⟩

/-- C9 counterexample.  First conjunct: at the "unset" sentinel the code
does NOT return `min_delay` - the jitter of line 296 is added in the
sentinel branch too, so with `min = 1`, `max = 2` and the random draw
`1/2` the result is `41/40`, not `1`.  Second conjunct: the sequence of
successive calls is NOT monotonic non-decreasing - with `min = max = 1`,
a first call jittered by draw `1/2` gives `41/40`, and the next call with
draw `0` caps back to `1 < 41/40`. -/
theorem c9_counterexample :
    determine_sleep_time (-1) 1 2 (1 / 2) ≠ 1 ∧
    determine_sleep_time (determine_sleep_time (-1) 1 1 (1 / 2)) 1 1 0 <
      determine_sleep_time (-1) 1 1 (1 / 2) := by
  constructor <;> norm_num [determine_sleep_time]

/-- C9 as amended: the Backoff Calculator returns `min_delay` PLUS jitter
(a uniform random fraction in `[0, 0.05]` of `min_delay`) when
`previous_delay` is the sentinel; otherwise it returns
`min(previous_delay * 2, max_delay)` plus jitter of that value; each
result never falls below its un-jittered base `min(previous_delay * 2,
max_delay)` - so successive calls never drop below the previous
un-jittered doubling value, though the jittered sequence itself may
decrease once the cap is reached - and never exceeds
`max_delay * 1.05`. -/
theorem c9_amended (current min_time max_time j : ℚ)
    (hmin : 0 ≤ min_time) (hmm : min_time ≤ max_time)
    (hj0 : 0 ≤ j) (hj1 : j ≤ 1) (hc : 0 ≤ current) :
    determine_sleep_time (-1) min_time max_time j =
      min_time + j * (5 / 100) * min_time ∧
    min (current * 2) max_time ≤
      determine_sleep_time current min_time max_time j ∧
    determine_sleep_time current min_time max_time j ≤
      max_time * (21 / 20) := by
  have hne : current ≠ -1 := by intro hcontra; rw [hcontra] at hc; norm_num at hc
  refine ⟨by simp [determine_sleep_time], ?_, ?_⟩
  · rw [determine_sleep_time]
    simp only [hne, if_false]
    by_cases hcap : max_time < current * 2
    · rw [if_pos hcap, min_eq_right (le_of_lt hcap)]
      nlinarith [mul_nonneg (mul_nonneg hj0 (by norm_num : (0:ℚ) ≤ 5 / 100))
        (le_trans hmin hmm)]
    · rw [if_neg hcap, min_eq_left (le_of_not_lt hcap)]
      nlinarith [mul_nonneg (mul_nonneg hj0 (by norm_num : (0:ℚ) ≤ 5 / 100))
        (by linarith : (0:ℚ) ≤ current * 2)]
  · rw [determine_sleep_time]
    simp only [hne, if_false]
    by_cases hcap : max_time < current * 2
    · rw [if_pos hcap]
      nlinarith [le_trans hmin hmm]
    · rw [if_neg hcap]
      have h2c : 0 ≤ current * 2 := by linarith
      nlinarith [le_of_not_lt hcap]

/-- C9 witness: the amended theorem applied at `current = 1`,
`min = 1`, `max = 2`, draw `1/2`, with all hypotheses discharged
concretely. -/
theorem c9_amended_witness :
    (0:ℚ) ≤ 1 ∧ (1:ℚ) ≤ 2 ∧ (0:ℚ) ≤ 1 / 2 ∧ (1/2 : ℚ) ≤ 1 ∧
    (determine_sleep_time (-1) 1 2 (1 / 2) = 1 + (1 / 2) * (5 / 100) * 1 ∧
     min ((1:ℚ) * 2) 2 ≤ determine_sleep_time 1 1 2 (1 / 2) ∧
     determine_sleep_time 1 1 2 (1 / 2) ≤ 2 * (21 / 20)) :=
  ⟨by norm_num, by norm_num, by norm_num, by norm_num,
    c9_amended 1 1 2 (1 / 2) (by norm_num) (by norm_num) (by norm_num)
      (by norm_num) (by norm_num)⟩
